import Mathlib

/-!
Shallow embedding of `app.py` (Smartsheet automation: webhook listener,
row fetcher, template filler, attachment publisher, webhook registrar).

Python cell values are modelled by `PyVal`; Python dictionaries by ordered
association lists with insert-or-replace update (`aset`) and first-match
lookup (`aget`), which matches Python `dict` observationally.  A pandas
`DataFrame` built from a list of dicts is modelled by `pdDataFrame`: its
column index is the ordered union of the dicts' keys, and indexing a row
`Series` at a column that the originating dict lacked yields the missing
marker `NaN` (a float, hence truthy in Python) — this is `seriesGet`.
Fallible Python code (uncaught `KeyError` / `TypeError`) is modelled with
`Except String`.
-/

set_option autoImplicit false

namespace SmartsheetApp

/-- A Python runtime value as it occurs in this program: `None`, a bool,
an int/number, a string, or the float `NaN` that pandas inserts for cells
missing from a row.  `NaN` is truthy in Python (`bool(float('nan')) = True`). -/
inductive PyVal where
  | none
  | bool (b : Bool)
  | int (n : Int)
  | str (s : String)
  | nan
  deriving DecidableEq, Repr

/-- Python truthiness (`bool(v)`): `None` and `False` and `0` and `""` are
falsy; `NaN` is a nonzero float and therefore truthy. -/
def truthy : PyVal → Bool
  | .none => false
  | .bool b => b
  | .int n => n != 0
  | .str s => s != ""
  | .nan => true

/-- Replace the value at the first occurrence of key `k`, or append `(k, v)`
if `k` is absent — Python `d[k] = v` on a dict (keys stay unique and keep
insertion order). -/
def aset {α β : Type} [DecidableEq α] : List (α × β) → α → β → List (α × β)
  | [], k, v => [(k, v)]
  | p :: ps, k, v => if p.1 = k then (k, v) :: ps else p :: aset ps k v

/-- Python `d.get(k)` / `d[k]`: value at the first occurrence of `k`. -/
def aget {α β : Type} [DecidableEq α] : List (α × β) → α → Option β
  | [], _ => Option.none
  | p :: ps, k => if p.1 = k then Option.some p.2 else aget ps k

/-- A row dict as built by `fetch_smartsheet_data`: column title ↦ value. -/
abbrev Dict := List (String × PyVal)

/-- One Smartsheet cell (`cell.column_id`, `cell.value`). -/
structure Cell where
  columnId : Nat
  value : PyVal
  deriving DecidableEq, Repr

/-- One Smartsheet row (`row.id`, `row.cells`). -/
structure SRow where
  id : Int
  cells : List Cell
  deriving DecidableEq, Repr

/-- One Smartsheet column (`col.id`, `col.title`). -/
structure Column where
  id : Nat
  title : String
  deriving DecidableEq, Repr

/-- A Smartsheet sheet as returned by `client.Sheets.get_sheet`. -/
structure Sheet where
  columns : List Column
  rows : List SRow
  deriving DecidableEq, Repr

/-- `column_map = {col.id: col.title for col in sheet.columns}`. -/
def columnMap (cols : List Column) : List (Nat × String) :=
  cols.foldl (fun m c => aset m c.id c.title) []

/-- The dict comprehension
`{column_map[cell.column_id]: cell.value for cell in row.cells if cell.value}`:
falsy-valued cells are filtered out before the key lookup, and a truthy cell
whose column id is not in `column_map` raises `KeyError`. -/
def rowDataGo (cmap : List (Nat × String)) (acc : Dict) : List Cell → Except String Dict
  | [] => .ok acc
  | c :: cs =>
    if truthy c.value then
      match aget cmap c.columnId with
      | Option.some t => rowDataGo cmap (aset acc t c.value) cs
      | Option.none => .error "KeyError"
    else rowDataGo cmap acc cs

/-- `row_data` for one row (see `rowDataGo`). -/
def rowDataOf (cmap : List (Nat × String)) (cells : List Cell) : Except String Dict :=
  rowDataGo cmap [] cells

/-- The address → row-id map uses the Python value stored under
`"Property Address"` as dict key and `row.id` as value. -/
abbrev RowIdMap := List (PyVal × Int)

/-- The row loop of `fetch_smartsheet_data`:
for each row build `row_data`; if `row_data.get("Check Box") is True`
append it to `sheet_data`, and if `"Property Address" in row_data`
record `row_id_map[row_data["Property Address"]] = row.id`. -/
def fetchGo (cmap : List (Nat × String)) :
    List SRow → List Dict → RowIdMap → Except String (List Dict × RowIdMap)
  | [], sd, m => .ok (sd, m)
  | r :: rs, sd, m =>
    match rowDataOf cmap r.cells with
    | .error e => .error e
    | .ok rd =>
      if aget rd "Check Box" = Option.some (PyVal.bool true) then
        match aget rd "Property Address" with
        | Option.some pa => fetchGo cmap rs (sd ++ [rd]) (aset m pa r.id)
        | Option.none => fetchGo cmap rs (sd ++ [rd]) m
      else fetchGo cmap rs sd m

/-- The successful-API path of `fetch_smartsheet_data`. -/
def fetchOk (sheet : Sheet) : Except String (List Dict × RowIdMap) :=
  fetchGo (columnMap sheet.columns) sheet.rows [] []

/-- A pandas DataFrame built from a list of row dicts: the column index is
the ordered union of the dicts' keys; the rows keep their sparse dicts and
missing columns read as `NaN` (see `seriesGet`). -/
structure DF where
  columns : List String
  rows : List Dict
  deriving DecidableEq, Repr

/-- Column index of `pd.DataFrame(list_of_dicts)`: keys in order of first
appearance. -/
def dfColumns (ds : List Dict) : List String :=
  ds.foldl (fun cs d => d.foldl (fun cs p => if p.1 ∈ cs then cs else cs ++ [p.1]) cs) []

/-- `pd.DataFrame(sheet_data)`. -/
def pdDataFrame (ds : List Dict) : DF :=
  ⟨dfColumns ds, ds⟩

/-- `row.get(k)` on a DataFrame row `Series` whose frame has columns `cols`
and originating dict `d`: `None` if `k` is not a column of the frame, the
dict's value if the dict has `k`, and the float `NaN` if the column exists
but this row's dict lacked it.  When `k ∈ cols` this is also `row[k]`. -/
def seriesGet (cols : List String) (d : Dict) (k : String) : PyVal :=
  if k ∈ cols then (aget d k).getD PyVal.nan else PyVal.none

/-- An opaque marker for a `smartsheet.exceptions.ApiError`. -/
structure ApiError where
  msg : String
  deriving DecidableEq, Repr

/-- `fetch_smartsheet_data`: on `ApiError` return `(None, {})`; otherwise
return `(pd.DataFrame(sheet_data), row_id_map)`.  A `KeyError` inside the
comprehension is not an `ApiError` and propagates. -/
def fetch_smartsheet_data (api : Except ApiError Sheet) :
    Except String (Option DF × RowIdMap) :=
  match api with
  | .error _ => .ok (Option.none, [])
  | .ok sheet =>
    match fetchOk sheet with
    | .error e => .error e
    | .ok (sd, m) => .ok (Option.some (pdDataFrame sd), m)

/-- The cell contents of one workbook: cell reference (e.g. `"B3"`) ↦ value. -/
abbrev Workbook := List (String × PyVal)

/-- `mapping_positions` from `create_property_files`. -/
def mapping_positions : List (String × String) :=
  [("Property Address", "B3"), ("Local authority", "B5"),
   ("EPC Score ( Rd SAP)", "B6"), ("Tenure", "B7")]

/-- The cell-writing loop of `create_property_files` on one row:
for each `(key, cell_ref)` in `mapping_positions`,
`if key in row and row[key]: ws[cell_ref] = row[key]`. -/
def fillCells (cols : List String) (d : Dict) (wb : Workbook) : Workbook :=
  mapping_positions.foldl
    (fun wb kc =>
      if kc.1 ∈ cols ∧ truthy (seriesGet cols d kc.1) then
        aset wb kc.2 (seriesGet cols d kc.1)
      else wb)
    wb

/-- The generated files, keyed by property-address folder name; the value is
the file name inside the folder and the saved workbook's cells. -/
abbrev GenFiles := List (String × (String × Workbook))

/-- The row loop of `create_property_files`:
`property_address = row.get("Property Address")`; skip if falsy;
`os.path.join` raises `TypeError` if the address is not a string (this
happens when the address is the pandas `NaN` of a row whose dict lacked the
column); otherwise copy the template to
`<output>/<address>/<address>.xlsx` (overwriting any earlier file at that
path) and write the mapped cells. -/
def createGo (tmpl : Workbook) (cols : List String) (acc : GenFiles) :
    List Dict → Except String GenFiles
  | [] => .ok acc
  | d :: ds =>
    let pa := seriesGet cols d "Property Address"
    if truthy pa then
      match pa with
      | PyVal.str s =>
        createGo tmpl cols (aset acc s (s ++ ".xlsx", fillCells cols d tmpl)) ds
      | _ => .error "TypeError: join() argument must be str, not float"
    else createGo tmpl cols acc ds

/-- `create_property_files(df)`, parameterised by the template workbook's
cell contents; returns the folder tree of generated files or the uncaught
exception. -/
def create_property_files (tmpl : Workbook) (df : DF) : Except String GenFiles :=
  createGo tmpl df.columns [] df.rows

/-- One entry of `os.listdir(OUTPUT_DIRECTORY)` with its kind and contents. -/
structure FSEntry where
  name : String
  isDir : Bool
  files : List String
  deriving DecidableEq, Repr

/-- `f.endswith(".xlsx") and not f.startswith("~$")`. -/
def isExcelFile (f : String) : Bool :=
  f.endsWith ".xlsx" && !(f.startsWith "~$")

/-- The body of the directory loop in `attach_excel_files_to_smartsheet`:
skip non-directories; skip if no matching Excel file; take the first
matching file; `row_id = row_id_map.get(folder, None)`; `if not row_id:
continue` (so both a missing entry and a zero id are skipped); otherwise
attempt the upload, recorded as `(row_id, folder, file)`. -/
def attachOne (m : RowIdMap) (e : FSEntry) : Option (Int × String × String) :=
  if !e.isDir then Option.none
  else
    match e.files.filter isExcelFile with
    | [] => Option.none
    | f :: _ =>
      match aget m (PyVal.str e.name) with
      | Option.none => Option.none
      | Option.some rid => if rid = 0 then Option.none else Option.some (rid, e.name, f)

/-- `attach_excel_files_to_smartsheet(row_id_map)` over the listing of the
output directory: the list of attempted upload calls, in order.  (A failed
upload is caught and logged per file, so every directory is visited
regardless of earlier outcomes.) -/
def attach_excel_files_to_smartsheet (fs : List FSEntry) (m : RowIdMap) :
    List (Int × String × String) :=
  fs.filterMap (attachOne m)

/-- One registered webhook as returned by `GET /webhooks`. -/
structure Webhook where
  id : Nat
  callbackUrl : String
  enabled : Bool
  deriving DecidableEq, Repr

/-- `WEBHOOK_URL` from the configuration block. -/
def WEBHOOK_URL : String := "https://web-production-f336.up.railway.app/webhook"

/-- `register_webhook()` as a transition on the service's webhook list,
under a successful listing (`status_code == 200`) and successful write
calls: if some existing webhook's `callbackUrl` equals `WEBHOOK_URL`, PUT
`{"enabled": True}` on that webhook's id and return; otherwise POST a new
enabled webhook with callback `WEBHOOK_URL` (its fresh id is a parameter). -/
def register_webhook (freshId : Nat) (s : List Webhook) : List Webhook :=
  match s.find? (fun w => w.callbackUrl = WEBHOOK_URL) with
  | Option.some w =>
    s.map (fun x => if x.id = w.id then { x with enabled := true } else x)
  | Option.none =>
    s ++ [{ id := freshId, callbackUrl := WEBHOOK_URL, enabled := true }]

/-- Number of webhooks whose callback URL is `WEBHOOK_URL`. -/
def countMatching (s : List Webhook) : Nat :=
  s.countP (fun w => w.callbackUrl = WEBHOOK_URL)

/-- Number of *enabled* webhooks whose callback URL is `WEBHOOK_URL`. -/
def countEnabledMatching (s : List Webhook) : Nat :=
  s.countP (fun w => w.callbackUrl = WEBHOOK_URL ∧ w.enabled = true)

/-- Decimal digit value of a character, if it is a digit. -/
def digitVal (c : Char) : Option Nat :=
  if '0' ≤ c ∧ c ≤ '9' then Option.some (c.toNat - '0'.toNat) else Option.none

/-- Accumulate a decimal number over a character list; `none` on the first
non-digit. -/
def decDigitsGo (acc : Nat) : List Char → Option Nat
  | [] => Option.some acc
  | c :: cs =>
    match digitVal c with
    | Option.some d => decDigitsGo (acc * 10 + d) cs
    | Option.none => Option.none

/-- Python `int(s)` on a string: an optional sign followed by at least one
decimal digit; anything else raises `ValueError` (whitespace stripping and
underscore grouping are not modelled — no claim depends on them). -/
def pyInt (s : String) : Option Int :=
  match s.data with
  | [] => Option.none
  | '-' :: cs =>
    if cs = [] then Option.none else (decDigitsGo 0 cs).map (fun n => -(n : Int))
  | '+' :: cs =>
    if cs = [] then Option.none else (decDigitsGo 0 cs).map (fun n => (n : Int))
  | cs => (decDigitsGo 0 cs).map (fun n => (n : Int))

/-- The module-level configuration and client-construction lines
(`app.py` lines 12–20), over an environment.
`API_KEY = os.getenv("SMARTSHEET_API_KEY")` never raises and may yield
`None`; `SHEET_ID = int(os.getenv("SMARTSHEET_SHEET_ID"))` raises
`TypeError` when the variable is absent (`int(None)`) and `ValueError`
when it is not numeric; then `client = smartsheet.Smartsheet(API_KEY, ...)`
resolves its token as
`access_token or os.environ.get("SMARTSHEET_ACCESS_TOKEN", None)` and
raises `ValueError("Access Token must be set in the environment or passed
to smartsheet.Smartsheet() as a parameter.")` when the result is `None`
(Smartsheet SDK constructor semantics).  All of this runs at import time,
before `app.run`.  Returns the client's access token and `SHEET_ID`. -/
def startup (env : String → Option String) : Except String (String × Int) :=
  let apiKey := env "SMARTSHEET_API_KEY"
  match env "SMARTSHEET_SHEET_ID" with
  | Option.none => .error "TypeError: int() argument must not be NoneType"
  | Option.some s =>
    match pyInt s with
    | Option.none => .error "ValueError: invalid literal for int()"
    | Option.some n =>
      let token :=
        match apiKey with
        | Option.some key =>
          if key ≠ "" then Option.some key else env "SMARTSHEET_ACCESS_TOKEN"
        | Option.none => env "SMARTSHEET_ACCESS_TOKEN"
      match token with
      | Option.some tok => .ok (tok, n)
      | Option.none =>
        .error "ValueError: Access Token must be set in the environment or passed to smartsheet.Smartsheet() as a parameter."

/-- One `changedColumns` element of a webhook event body. -/
structure ChangedColumn where
  columnTitle : String
  newValue : String
  deriving DecidableEq, Repr

/-- One element of the webhook body's `events` list. -/
structure Event where
  rowId : Int
  changedColumns : List ChangedColumn
  deriving DecidableEq, Repr

/-- HTTP method of a request to `/webhook`. -/
inductive Method where
  | get
  | post
  deriving DecidableEq, Repr

/-- An inbound request to `/webhook`: the method, the
`smartsheetHookChallenge` query argument if present, and the parsed JSON
body's event list. -/
structure Request where
  method : Method
  challenge : Option String
  events : List Event
  deriving DecidableEq, Repr

/-- Pipeline stages the handler can run: `fetch_smartsheet_data`,
`create_property_files`, `attach_excel_files_to_smartsheet`. -/
inductive Step where
  | fetch
  | fill
  | publish
  deriving DecidableEq, Repr

/-- An HTTP response: body text (for JSON responses, the `"message"` value)
and status code. -/
structure Resp where
  body : String
  status : Nat
  deriving DecidableEq, Repr

/-- `webhook_listener()`, parameterised by the outcome of the Smartsheet
API call that `fetch_smartsheet_data` would make and by the template
workbook's cells.  The first component is the HTTP outcome — `.error`
stands for an uncaught exception, which Flask turns into a 500 — and the
second lists the pipeline stages entered, in order.

GET: `if challenge:` is Python truthiness, so the token is echoed with 200
only when the `smartsheetHookChallenge` argument is present *and*
non-empty; otherwise the static acknowledgment is returned; the pipeline
code is never reached.

POST: the parsed body is only printed; `fetch_smartsheet_data` always runs
(a `KeyError` inside it propagates); if the frame is `None` or empty the
handler responds 400 without running the other stages; otherwise
`create_property_files` runs, and an exception it raises propagates, so
`attach_excel_files_to_smartsheet` — which catches per-file API errors and
always completes over the output tree — runs only when the filler
finished, after which the handler responds 200. -/
def webhook_listener (req : Request) (api : Except ApiError Sheet) (tmpl : Workbook) :
    Except String Resp × List Step :=
  match req.method with
  | Method.get =>
    match req.challenge with
    | Option.some c =>
      if c ≠ "" then (.ok ⟨c, 200⟩, [])
      else (.ok ⟨"✅ Webhook is set up correctly!", 200⟩, [])
    | Option.none => (.ok ⟨"✅ Webhook is set up correctly!", 200⟩, [])
  | Method.post =>
    match fetch_smartsheet_data api with
    | .error e => (.error e, [Step.fetch])
    | .ok (df?, _m) =>
      match df? with
      | Option.some df =>
        if df.rows = [] then (.ok ⟨"No checked rows found!", 400⟩, [Step.fetch])
        else
          match create_property_files tmpl df with
          | .error e => (.error e, [Step.fetch, Step.fill])
          | .ok _files =>
            (.ok ⟨"Files updated & attached!", 200⟩, [Step.fetch, Step.fill, Step.publish])
      | Option.none => (.ok ⟨"No checked rows found!", 400⟩, [Step.fetch])

/-! ### Concrete inputs used in counterexamples and witnesses -/

/-- A sheet with a single checked row with a non-empty address. -/
def sheet1 : Sheet :=
  ⟨[⟨1, "Property Address"⟩, ⟨2, "Check Box"⟩],
   [⟨10, [⟨1, PyVal.str "A"⟩, ⟨2, PyVal.bool true⟩]⟩]⟩

/-- A POST notification whose single event changes an unrelated column, so
it contains no `Check Box`/`"TRUE"` change. -/
def reqNoTrigger : Request :=
  ⟨Method.post, Option.none, [⟨10, [⟨"Other Column", "x"⟩]⟩]⟩

/-- A template workbook with distinguishable default contents in the four
mapped cells. -/
def tmpl0 : Workbook :=
  [("B3", PyVal.str "Template B3"), ("B5", PyVal.str "Template B5"),
   ("B6", PyVal.str "Template B6"), ("B7", PyVal.str "Template B7")]

/-- A sheet with two checked rows; the second one has no
`Property Address` cell while the first one has one. -/
def sheetNoPA : Sheet :=
  ⟨[⟨1, "Property Address"⟩, ⟨2, "Check Box"⟩],
   [⟨10, [⟨1, PyVal.str "A"⟩, ⟨2, PyVal.bool true⟩]⟩,
    ⟨11, [⟨2, PyVal.bool true⟩]⟩]⟩

/-- Row dict of the second row of `sheetNoPA`: no `Property Address` key. -/
def dNoPA : Dict := [("Check Box", PyVal.bool true)]

/-! ### Association-list lemmas -/

theorem aget_aset {α β : Type} [DecidableEq α] (m : List (α × β)) (k k' : α) (v : β) :
    aget (aset m k v) k' = if k = k' then Option.some v else aget m k' := by
  induction m with
  | nil => simp [aset, aget]
  | cons p ps ih =>
    by_cases h : p.1 = k
    · simp only [aset, if_pos h, aget]
      by_cases h' : k = k'
      · simp [h']
      · have hp : ¬ p.1 = k' := by rw [h]; exact h'
        simp [h', hp]
    · simp only [aset, if_neg h, aget, ih]
      by_cases h1 : p.1 = k'
      · have h2 : ¬ k = k' := fun hk => h (by rw [h1, hk])
        simp [h1, h2]
      · simp [h1]

theorem aget_aset_ne {α β : Type} [DecidableEq α] (m : List (α × β)) (k k' : α) (v : β)
    (h : k ≠ k') : aget (aset m k v) k' = aget m k' := by
  rw [aget_aset, if_neg h]

/-! ### Claim theorems -/

/-- C9: a GET request to `/webhook` carrying a challenge token is answered
with exactly that token and status 200 — the handler's `if challenge:` is
Python truthiness, so carrying a token means the `smartsheetHookChallenge`
argument is present and non-empty (e.g. `"xyz123"` is echoed verbatim); a
GET without a token — the argument absent, or present but empty and hence
falsy — is answered with the static acknowledgment and status 200; and no
GET request runs any pipeline stage (`fetch_smartsheet_data`,
`create_property_files`, `attach_excel_files_to_smartsheet`). -/
theorem c9_get_challenge_echo :
    ∀ (c : String) (evs : List Event) (api : Except ApiError Sheet) (tmpl : Workbook),
      (c ≠ "" → webhook_listener ⟨Method.get, Option.some c, evs⟩ api tmpl =
        (.ok ⟨c, 200⟩, [])) ∧
      webhook_listener ⟨Method.get, Option.none, evs⟩ api tmpl =
        (.ok ⟨"✅ Webhook is set up correctly!", 200⟩, []) ∧
      webhook_listener ⟨Method.get, Option.some "", evs⟩ api tmpl =
        (.ok ⟨"✅ Webhook is set up correctly!", 200⟩, []) ∧
      (webhook_listener ⟨Method.get, Option.some c, evs⟩ api tmpl).2 = [] := by
  intro c evs api tmpl
  refine ⟨?_, rfl, rfl, ?_⟩
  · intro h
    simp [webhook_listener, h]
  · by_cases h : c = ""
    · rw [h]; rfl
    · simp [webhook_listener, h]

/-- Witness for `c9_get_challenge_echo`: the spec's example token
`"xyz123"` is echoed verbatim with status 200 and no pipeline stage. -/
theorem c9_get_challenge_echo_witness :
    webhook_listener ⟨Method.get, Option.some "xyz123", []⟩ (.error ⟨"e"⟩) tmpl0 =
      (.ok ⟨"xyz123", 200⟩, []) :=
  (c9_get_challenge_echo "xyz123" [] (.error ⟨"e"⟩) tmpl0).1 (by decide)

/-- C1 counterexample: a POST notification whose events contain no
`Check Box`/`"TRUE"` change nevertheless triggers the full
fetch–fill–publish pipeline (here the sheet has one checked row, so all
three stages run), refuting "a notification whose events do not include
such a change does not trigger Row Fetcher, Template Filler, or Attachment
Publisher". -/
theorem c1_counterexample :
    webhook_listener reqNoTrigger (.ok sheet1) tmpl0 =
      (.ok ⟨"Files updated & attached!", 200⟩, [Step.fetch, Step.fill, Step.publish]) ∧
    ∀ e ∈ reqNoTrigger.events, ∀ ch ∈ e.changedColumns,
      ¬(ch.columnTitle = "Check Box" ∧ ch.newValue = "TRUE") := by
  refine ⟨rfl, ?_⟩
  decide

/-- C1 (amended): the POST handler ignores the notification body entirely —
its behaviour is identical for any event list and query string — and it
always runs `fetch_smartsheet_data`; if the fetched frame is `None` or
empty it responds 400 without running anything else; otherwise
`create_property_files` runs, and `attach_excel_files_to_smartsheet` runs
(with a 200 response) exactly when the filler completed without raising —
a filler exception propagates (HTTP 500) and the publisher is never
invoked. -/
theorem c1_post_ignores_events :
    ∀ (evs evs' : List Event) (ch ch' : Option String) (api : Except ApiError Sheet)
      (tmpl : Workbook),
      webhook_listener ⟨Method.post, ch, evs⟩ api tmpl =
        webhook_listener ⟨Method.post, ch', evs'⟩ api tmpl ∧
      (∀ df m files, fetch_smartsheet_data api = .ok (Option.some df, m) → df.rows ≠ [] →
        create_property_files tmpl df = .ok files →
        webhook_listener ⟨Method.post, ch, evs⟩ api tmpl =
          (.ok ⟨"Files updated & attached!", 200⟩,
           [Step.fetch, Step.fill, Step.publish])) ∧
      (∀ df m e, fetch_smartsheet_data api = .ok (Option.some df, m) → df.rows ≠ [] →
        create_property_files tmpl df = .error e →
        webhook_listener ⟨Method.post, ch, evs⟩ api tmpl =
          (.error e, [Step.fetch, Step.fill])) ∧
      (∀ df m, fetch_smartsheet_data api = .ok (Option.some df, m) → df.rows = [] →
        webhook_listener ⟨Method.post, ch, evs⟩ api tmpl =
          (.ok ⟨"No checked rows found!", 400⟩, [Step.fetch])) ∧
      (∀ m, fetch_smartsheet_data api = .ok (Option.none, m) →
        webhook_listener ⟨Method.post, ch, evs⟩ api tmpl =
          (.ok ⟨"No checked rows found!", 400⟩, [Step.fetch])) := by
  intro evs evs' ch ch' api tmpl
  refine ⟨rfl, ?_, ?_, ?_, ?_⟩
  · intro df m files hf hne hc
    simp [webhook_listener, hf, hne, hc]
  · intro df m e hf hne hc
    simp [webhook_listener, hf, hne, hc]
  · intro df m hf he
    simp [webhook_listener, hf, he]
  · intro m hf
    simp [webhook_listener, hf]

/-- Witness for `c1_post_ignores_events`: on a checked one-row sheet all
three stages run with a 200; on `sheetNoPA` the filler raises, the
exception propagates and the publisher is never reached. -/
theorem c1_post_ignores_events_witness :
    webhook_listener ⟨Method.post, Option.none, []⟩ (.ok sheet1) tmpl0 =
      (.ok ⟨"Files updated & attached!", 200⟩, [Step.fetch, Step.fill, Step.publish]) ∧
    webhook_listener ⟨Method.post, Option.none, []⟩ (.ok sheetNoPA) tmpl0 =
      (.error "TypeError: join() argument must be str, not float",
       [Step.fetch, Step.fill]) :=
  ⟨(c1_post_ignores_events [] [] Option.none Option.none (.ok sheet1) tmpl0).2.1
      (pdDataFrame [[("Property Address", PyVal.str "A"), ("Check Box", PyVal.bool true)]])
      [(PyVal.str "A", 10)]
      [("A", ("A.xlsx",
        [("B3", PyVal.str "A"), ("B5", PyVal.str "Template B5"),
         ("B6", PyVal.str "Template B6"), ("B7", PyVal.str "Template B7")]))]
      rfl (by decide) rfl,
   (c1_post_ignores_events [] [] Option.none Option.none (.ok sheetNoPA) tmpl0).2.2.1
      (pdDataFrame
        [[("Property Address", PyVal.str "A"), ("Check Box", PyVal.bool true)], dNoPA])
      [(PyVal.str "A", 10)]
      "TypeError: join() argument must be str, not float"
      rfl (by decide) rfl⟩

/-- Environment with only the sheet id set: both the API-key variable and
the SDK's fallback token variable are absent. -/
def envOnlySheet : String → Option String :=
  fun k => if k = "SMARTSHEET_SHEET_ID" then Option.some "123" else Option.none

/-- Environment with the sheet id and the SDK's fallback token set, but
`SMARTSHEET_API_KEY` absent. -/
def envSheetAndToken : String → Option String :=
  fun k =>
    if k = "SMARTSHEET_SHEET_ID" then Option.some "123"
    else if k = "SMARTSHEET_ACCESS_TOKEN" then Option.some "tok" else Option.none

/-- C2: each variable independently fails fast at import time, before any
request is served: a missing `SMARTSHEET_SHEET_ID` raises `TypeError` at
`int(None)` (line 13), and a missing `SMARTSHEET_API_KEY` makes
`smartsheet.Smartsheet(None, ...)` (line 19) raise `ValueError` — unless
the SDK's own `SMARTSHEET_ACCESS_TOKEN` fallback supplies the token, in
which case the program proceeds with that concrete credential; it never
proceeds with a null one. -/
theorem c2_fail_fast :
    ∀ (env : String → Option String),
      (env "SMARTSHEET_SHEET_ID" = Option.none → ∃ e, startup env = .error e) ∧
      (env "SMARTSHEET_API_KEY" = Option.none →
        env "SMARTSHEET_ACCESS_TOKEN" = Option.none →
        ∃ e, startup env = .error e) ∧
      (∀ tok n s, env "SMARTSHEET_API_KEY" = Option.none →
        env "SMARTSHEET_ACCESS_TOKEN" = Option.some tok →
        env "SMARTSHEET_SHEET_ID" = Option.some s → pyInt s = Option.some n →
        startup env = .ok (tok, n)) := by
  intro env
  refine ⟨?_, ?_, ?_⟩
  · intro h
    refine ⟨"TypeError: int() argument must not be NoneType", ?_⟩
    simp [startup, h]
  · intro hk ht
    cases hs : env "SMARTSHEET_SHEET_ID" with
    | none =>
      refine ⟨"TypeError: int() argument must not be NoneType", ?_⟩
      simp [startup, hs]
    | some s =>
      cases hn : pyInt s with
      | none =>
        refine ⟨"ValueError: invalid literal for int()", ?_⟩
        simp [startup, hs, hn]
      | some n =>
        refine ⟨"ValueError: Access Token must be set in the environment or passed to smartsheet.Smartsheet() as a parameter.", ?_⟩
        simp [startup, hs, hn, hk, ht]
  · intro tok n s hk ht hs hn
    simp [startup, hs, hn, hk, ht]

/-- Witness for `c2_fail_fast`: with only the sheet id set, startup raises
(no credential anywhere); with nothing set it raises (missing sheet id);
with the SDK's fallback token set it proceeds with that token. -/
theorem c2_fail_fast_witness :
    (∃ e, startup envOnlySheet = .error e) ∧
    (∃ e, startup (fun _ => Option.none) = .error e) ∧
    startup envSheetAndToken = .ok ("tok", 123) :=
  ⟨(c2_fail_fast envOnlySheet).2.1 rfl rfl,
   (c2_fail_fast (fun _ => Option.none)).1 rfl,
   (c2_fail_fast envSheetAndToken).2.2 "tok" 123 "123" rfl rfl rfl (by decide)⟩

/-- C3 counterexample: on an API error, `fetch_smartsheet_data` returns
`(None, {})` — the first component is `None`, not an empty collection of
rows (`pd.DataFrame([])`), refuting "returns an empty result set (an empty
collection of rows)". -/
theorem c3_counterexample :
    fetch_smartsheet_data (.error ⟨"rate limit"⟩) = .ok (Option.none, []) ∧
    fetch_smartsheet_data (.error ⟨"rate limit"⟩) ≠
      .ok (Option.some (pdDataFrame []), []) := by
  constructor
  · rfl
  · intro h
    simp [fetch_smartsheet_data] at h

/-- C3 (amended): on any API error, `fetch_smartsheet_data` swallows the
error and returns `None` in place of the row frame together with an empty
lookup map; the POST handler then treats this identically to a fetch that
found no rows at all (same response, same pipeline stages). -/
theorem c3_api_error_swallowed :
    ∀ (e : ApiError) (tmpl : Workbook),
      fetch_smartsheet_data (.error e) = .ok (Option.none, []) ∧
      webhook_listener ⟨Method.post, Option.none, []⟩ (.error e) tmpl =
        webhook_listener ⟨Method.post, Option.none, []⟩ (.ok ⟨[], []⟩) tmpl := by
  intro e tmpl
  exact ⟨rfl, rfl⟩

/-- Every dict the fetch loop adds to `sheet_data` has `Check Box`
exactly boolean `True`. -/
theorem fetchGo_ok_mem (cmap : List (Nat × String)) :
    ∀ (rs : List SRow) (sd : List Dict) (m : RowIdMap) (sd' : List Dict) (m' : RowIdMap),
      fetchGo cmap rs sd m = .ok (sd', m') →
      ∀ d ∈ sd', d ∈ sd ∨ aget d "Check Box" = Option.some (PyVal.bool true) := by
  intro rs
  induction rs with
  | nil =>
    intro sd m sd' m' h d hd
    simp only [fetchGo, Except.ok.injEq, Prod.mk.injEq] at h
    exact Or.inl (h.1 ▸ hd)
  | cons r rs ih =>
    intro sd m sd' m' h d hd
    simp only [fetchGo] at h
    cases hrd : rowDataOf cmap r.cells with
    | error e => simp [hrd] at h
    | ok rd =>
      simp only [hrd] at h
      by_cases hc : aget rd "Check Box" = Option.some (PyVal.bool true)
      · rw [if_pos hc] at h
        have step : ∀ m₂, fetchGo cmap rs (sd ++ [rd]) m₂ = .ok (sd', m') →
            d ∈ sd ∨ aget d "Check Box" = Option.some (PyVal.bool true) := by
          intro m₂ h₂
          rcases ih _ _ _ _ h₂ d hd with h1 | h1
          · rcases List.mem_append.mp h1 with h2 | h2
            · exact Or.inl h2
            · simp only [List.mem_singleton] at h2
              exact Or.inr (h2 ▸ hc)
          · exact Or.inr h1
        cases hpa : aget rd "Property Address" with
        | some pa => rw [hpa] at h; exact step _ h
        | none => rw [hpa] at h; exact step _ h
      · rw [if_neg hc] at h
        exact ih _ _ _ _ h d hd

/-- Every entry of the address → row-id map produced by the fetch loop
either was already in the accumulator or comes from a row whose row dict
has `Check Box` exactly `True` and that address. -/
theorem fetchGo_ok_map (cmap : List (Nat × String)) :
    ∀ (rs : List SRow) (sd : List Dict) (m : RowIdMap) (sd' : List Dict) (m' : RowIdMap),
      fetchGo cmap rs sd m = .ok (sd', m') →
      ∀ (a : PyVal) (rid : Int), aget m' a = Option.some rid →
        aget m a = Option.some rid ∨
        ∃ r ∈ rs, r.id = rid ∧ ∃ rd, rowDataOf cmap r.cells = .ok rd ∧
          aget rd "Check Box" = Option.some (PyVal.bool true) ∧
          aget rd "Property Address" = Option.some a := by
  intro rs
  induction rs with
  | nil =>
    intro sd m sd' m' h a rid ha
    simp only [fetchGo, Except.ok.injEq, Prod.mk.injEq] at h
    exact Or.inl (h.2 ▸ ha)
  | cons r rs ih =>
    intro sd m sd' m' h a rid ha
    simp only [fetchGo] at h
    cases hrd : rowDataOf cmap r.cells with
    | error e => simp [hrd] at h
    | ok rd =>
      simp only [hrd] at h
      by_cases hc : aget rd "Check Box" = Option.some (PyVal.bool true)
      · rw [if_pos hc] at h
        cases hpa : aget rd "Property Address" with
        | some pa =>
          rw [hpa] at h
          rcases ih _ _ _ _ h a rid ha with h1 | ⟨r', hr', hid, rd', hrest⟩
          · rw [aget_aset] at h1
            by_cases he : pa = a
            · rw [if_pos he] at h1
              refine Or.inr ⟨r, List.mem_cons_self r rs, ?_, rd, hrd, hc, he ▸ hpa⟩
              exact (Option.some.injEq _ _ ▸ h1 : r.id = rid)
            · rw [if_neg he] at h1
              exact Or.inl h1
          · exact Or.inr ⟨r', List.mem_cons_of_mem r hr', hid, rd', hrest⟩
        | none =>
          rw [hpa] at h
          rcases ih _ _ _ _ h a rid ha with h1 | ⟨r', hr', hid, rd', hrest⟩
          · exact Or.inl h1
          · exact Or.inr ⟨r', List.mem_cons_of_mem r hr', hid, rd', hrest⟩
      · rw [if_neg hc] at h
        rcases ih _ _ _ _ h a rid ha with h1 | ⟨r', hr', hid, rd', hrest⟩
        · exact Or.inl h1
        · exact Or.inr ⟨r', List.mem_cons_of_mem r hr', hid, rd', hrest⟩

/-- C4: a sheet row whose `Check Box` cell is not exactly boolean `True`
(absent, `False`, or any other value) is excluded from the fetched
`sheet_data` — hence `create_property_files`, which iterates exactly over
that list, never generates a file for it — and no entry of the
address → row-id map used by `attach_excel_files_to_smartsheet` carries its
row id (assuming the sheet's row ids are distinct, as Smartsheet
guarantees). -/
theorem c4_unchecked_rows_excluded :
    ∀ (sheet : Sheet) (sd : List Dict) (m : RowIdMap) (r : SRow) (rd : Dict),
      fetchOk sheet = .ok (sd, m) →
      (sheet.rows.map SRow.id).Nodup →
      r ∈ sheet.rows →
      rowDataOf (columnMap sheet.columns) r.cells = .ok rd →
      aget rd "Check Box" ≠ Option.some (PyVal.bool true) →
      rd ∉ sd ∧ ∀ a : PyVal, aget m a ≠ Option.some r.id := by
  intro sheet sd m r rd hfetch hnodup hr hrd hcb
  unfold fetchOk at hfetch
  constructor
  · intro hmem
    rcases fetchGo_ok_mem _ _ _ _ _ _ hfetch rd hmem with h | h
    · exact List.not_mem_nil rd h
    · exact hcb h
  · intro a ha
    rcases fetchGo_ok_map _ _ _ _ _ _ hfetch a r.id ha with h | ⟨r', hr', hid, rd', hrd', hcb', _⟩
    · simp [aget] at h
    · have hrr : r' = r := List.inj_on_of_nodup_map hnodup hr' hr hid
      rw [hrr, hrd] at hrd'
      injection hrd' with h2
      exact hcb (h2 ▸ hcb')

/-- A sheet with one checked row and one unchecked row (its `Check Box`
cell is boolean `False`). -/
def sheetW : Sheet :=
  ⟨[⟨1, "Property Address"⟩, ⟨2, "Check Box"⟩],
   [⟨10, [⟨1, PyVal.str "A"⟩, ⟨2, PyVal.bool true⟩]⟩,
    ⟨11, [⟨1, PyVal.str "Bst"⟩, ⟨2, PyVal.bool false⟩]⟩]⟩

/-- Witness for `c4_unchecked_rows_excluded` on `sheetW`: the unchecked
row's dict is not in the fetched data and its id 11 is not reachable
through the lookup map at its own address. -/
theorem c4_unchecked_rows_excluded_witness :
    [("Property Address", PyVal.str "Bst")] ∉
      [[("Property Address", PyVal.str "A"), ("Check Box", PyVal.bool true)]] ∧
    aget [(PyVal.str "A", (10 : Int))] (PyVal.str "Bst") ≠ Option.some 11 := by
  have h := c4_unchecked_rows_excluded sheetW
    [[("Property Address", PyVal.str "A"), ("Check Box", PyVal.bool true)]]
    [(PyVal.str "A", (10 : Int))]
    ⟨11, [⟨1, PyVal.str "Bst"⟩, ⟨2, PyVal.bool false⟩]⟩
    [("Property Address", PyVal.str "Bst")]
    rfl (by decide) (by decide) rfl (by decide)
  exact ⟨h.1, h.2 (PyVal.str "Bst")⟩

/-- A sheet with two checked rows; the second one lacks a `Tenure` cell
while the first one has one, so the DataFrame gives the second row the
value `NaN` in the `Tenure` column. -/
def sheetNanTenure : Sheet :=
  ⟨[⟨1, "Property Address"⟩, ⟨2, "Check Box"⟩, ⟨3, "Tenure"⟩],
   [⟨10, [⟨1, PyVal.str "A"⟩, ⟨2, PyVal.bool true⟩, ⟨3, PyVal.str "Freehold"⟩]⟩,
    ⟨11, [⟨1, PyVal.str "B"⟩, ⟨2, PyVal.bool true⟩]⟩]⟩

/-- Row dict of the first row of `sheetNanTenure`. -/
def dNanA : Dict :=
  [("Property Address", PyVal.str "A"), ("Check Box", PyVal.bool true),
   ("Tenure", PyVal.str "Freehold")]

/-- Row dict of the second row of `sheetNanTenure`: no `Tenure` key. -/
def dNanB : Dict :=
  [("Property Address", PyVal.str "B"), ("Check Box", PyVal.bool true)]

/-- C5 (code bug): on `sheetNanTenure`, row `"B"` has no `Tenure` field
(`dNanB` lacks the key), yet the generated `B/B.xlsx` has `NaN` written
into cell B7 instead of retaining the template's content: the guard
`if key in row and row[key]` does not skip the field because the pandas
`Series` holds the truthy float `NaN` for the missing column.  The claim's
"every mapped cell whose field is absent … retains the template's original
content" is therefore violated by the code. -/
theorem c5_nan_overwrites_template_cell :
    fetch_smartsheet_data (.ok sheetNanTenure) =
      .ok (Option.some (pdDataFrame [dNanA, dNanB]),
           [(PyVal.str "A", 10), (PyVal.str "B", 11)]) ∧
    aget dNanB "Tenure" = Option.none ∧
    create_property_files tmpl0 (pdDataFrame [dNanA, dNanB]) =
      .ok [("A", ("A.xlsx",
            [("B3", PyVal.str "A"), ("B5", PyVal.str "Template B5"),
             ("B6", PyVal.str "Template B6"), ("B7", PyVal.str "Freehold")])),
           ("B", ("B.xlsx",
            [("B3", PyVal.str "B"), ("B5", PyVal.str "Template B5"),
             ("B6", PyVal.str "Template B6"), ("B7", PyVal.nan)]))] ∧
    aget tmpl0 "B7" = Option.some (PyVal.str "Template B7") ∧
    PyVal.nan ≠ PyVal.str "Template B7" := by
  refine ⟨rfl, rfl, rfl, rfl, ?_⟩
  decide

/-- C6 (code bug): on `sheetNoPA`, the second checked row has no
`Property Address` field, yet `create_property_files` is not a no-op for
it: the pandas `Series` yields the truthy float `NaN` for the missing
column, the guard `if not property_address: continue` does not fire, and
`os.path.join` raises `TypeError`, aborting the processing of the batch
instead of continuing with the remaining rows. -/
theorem c6_missing_address_raises :
    fetch_smartsheet_data (.ok sheetNoPA) =
      .ok (Option.some (pdDataFrame
            [[("Property Address", PyVal.str "A"), ("Check Box", PyVal.bool true)],
             dNoPA]),
           [(PyVal.str "A", 10)]) ∧
    aget dNoPA "Property Address" = Option.none ∧
    create_property_files tmpl0 (pdDataFrame
        [[("Property Address", PyVal.str "A"), ("Check Box", PyVal.bool true)], dNoPA]) =
      .error "TypeError: join() argument must be str, not float" := by
  exact ⟨rfl, rfl, rfl⟩

/-- C7: the Attachment Publisher never attempts an upload for an output
subdirectory whose name has no entry in the address → row-id map, nor for
one containing no `.xlsx` file that is not a `~$` lock file; and such a
directory has no effect on the processing of the other directories (the
upload list splits around it). -/
theorem c7_publisher_skips :
    ∀ (m : RowIdMap) (e : FSEntry) (pre post : List FSEntry),
      e.isDir = true →
      (aget m (PyVal.str e.name) = Option.none ∨ e.files.filter isExcelFile = []) →
      attachOne m e = Option.none ∧
      attach_excel_files_to_smartsheet (pre ++ e :: post) m =
        attach_excel_files_to_smartsheet pre m ++ attach_excel_files_to_smartsheet post m := by
  intro m e pre post hdir hcond
  have h1 : attachOne m e = Option.none := by
    unfold attachOne
    rw [hdir]
    simp only [Bool.not_true, Bool.false_eq_true, if_false]
    rcases hcond with hc | hc
    · cases hf : e.files.filter isExcelFile with
      | nil => rfl
      | cons f fs => rw [hc]
    · rw [hc]
  refine ⟨h1, ?_⟩
  unfold attach_excel_files_to_smartsheet
  rw [List.filterMap_append, List.filterMap_cons, h1]

/-- Witness for `c7_publisher_skips`: directory `"C"` has an Excel file but
no map entry; the upload list is exactly the one produced by the other
directories. -/
theorem c7_publisher_skips_witness :
    attachOne [(PyVal.str "A", (10 : Int))] ⟨"C", true, ["C.xlsx"]⟩ = Option.none ∧
    attach_excel_files_to_smartsheet
        ([⟨"A", true, ["A.xlsx"]⟩] ++ ⟨"C", true, ["C.xlsx"]⟩ :: [])
        [(PyVal.str "A", (10 : Int))] =
      attach_excel_files_to_smartsheet [⟨"A", true, ["A.xlsx"]⟩]
        [(PyVal.str "A", (10 : Int))] ++
      attach_excel_files_to_smartsheet [] [(PyVal.str "A", (10 : Int))] :=
  c7_publisher_skips [(PyVal.str "A", (10 : Int))] ⟨"C", true, ["C.xlsx"]⟩
    [⟨"A", true, ["A.xlsx"]⟩] [] rfl (Or.inl (by decide))

/-- A list with exactly one element satisfying `p` has no two distinct
members satisfying `p`. -/
theorem countP_eq_one_unique {α : Type} (p : α → Bool) :
    ∀ (l : List α), l.countP p = 1 →
      ∀ x ∈ l, p x = true → ∀ y ∈ l, p y = true → x = y := by
  intro l
  induction l with
  | nil => intro _ x hx; cases hx
  | cons a l ih =>
    intro h x hx hpx y hy hpy
    rw [List.countP_cons] at h
    by_cases hpa : p a = true
    · rw [if_pos hpa] at h
      have hl : l.countP p = 0 := by omega
      have hnot : ∀ z ∈ l, ¬ p z = true := by
        intro z hz hpz
        have hpos : 0 < l.countP p := List.countP_pos_iff.mpr ⟨z, hz, hpz⟩
        omega
      rcases List.mem_cons.mp hx with rfl | hx'
      · rcases List.mem_cons.mp hy with rfl | hy'
        · rfl
        · exact absurd hpy (hnot y hy')
      · exact absurd hpx (hnot x hx')
    · rw [if_neg hpa] at h
      rcases List.mem_cons.mp hx with rfl | hx'
      · exact absurd hpx hpa
      · rcases List.mem_cons.mp hy with rfl | hy'
        · exact absurd hpy hpa
        · exact ih (by omega) x hx' hpx y hy' hpy

/-- The update branch of `register_webhook` preserves every webhook's
callback URL. -/
theorem register_webhook_url_preserved (w : Webhook) (x : Webhook) :
    ((fun x => if x.id = w.id then { x with enabled := true } else x) x).callbackUrl =
      x.callbackUrl := by
  by_cases h : x.id = w.id <;> simp [h]

/-- If some webhook with the target URL exists, `register_webhook` takes
the update branch, so the webhook count and every callback URL are
unchanged. -/
theorem register_webhook_of_matching (i : Nat) (s : List Webhook)
    (hpos : 0 < countMatching s) :
    ∃ w, s.find? (fun w => w.callbackUrl = WEBHOOK_URL) = Option.some w ∧
      register_webhook i s =
        s.map (fun x => if x.id = w.id then { x with enabled := true } else x) := by
  obtain ⟨a, ha, hpa⟩ := List.countP_pos_iff.mp hpos
  have hsome : (s.find? (fun w => w.callbackUrl = WEBHOOK_URL)).isSome = true :=
    List.find?_isSome.mpr ⟨a, ha, hpa⟩
  obtain ⟨w, hw⟩ := Option.isSome_iff_exists.mp hsome
  refine ⟨w, hw, ?_⟩
  unfold register_webhook
  rw [hw]

/-- `register_webhook` on a state with a matching webhook keeps the number
of matching webhooks and the total length. -/
theorem register_webhook_counts (i : Nat) (s : List Webhook)
    (hpos : 0 < countMatching s) :
    countMatching (register_webhook i s) = countMatching s ∧
    (register_webhook i s).length = s.length := by
  obtain ⟨w, hw, hreg⟩ := register_webhook_of_matching i s hpos
  rw [hreg]
  constructor
  · unfold countMatching
    rw [List.countP_map]
    refine List.countP_congr ?_
    intro x hx
    simp only [Function.comp_apply]
    rw [register_webhook_url_preserved w x]
  · exact List.length_map s _

/-- After `register_webhook` on a state with exactly one matching webhook,
every matching webhook is enabled. -/
theorem register_webhook_matching_enabled (i : Nat) (s : List Webhook)
    (hone : countMatching s = 1) :
    ∀ x ∈ register_webhook i s, x.callbackUrl = WEBHOOK_URL → x.enabled = true := by
  obtain ⟨w, hw, hreg⟩ := register_webhook_of_matching i s (by omega)
  have hwmem : w ∈ s := List.mem_of_find?_eq_some hw
  have hwurl : w.callbackUrl = WEBHOOK_URL := by
    have := List.find?_some hw
    exact of_decide_eq_true this
  intro x hx hxurl
  rw [hreg] at hx
  obtain ⟨y, hy, hfy⟩ := List.mem_map.mp hx
  have hyurl : y.callbackUrl = WEBHOOK_URL := by
    rw [← hxurl, ← hfy]
    exact (register_webhook_url_preserved w y).symm
  have hyw : y = w :=
    countP_eq_one_unique _ s hone y hy (decide_eq_true hyurl) w hwmem (decide_eq_true hwurl)
  rw [← hfy, hyw]
  simp

/-- C8: if exactly one subscription with the target callback URL exists —
enabled or disabled — then running `register_webhook` updates it to enabled
without creating a second one, and running it twice leaves exactly one
subscription with that URL, exactly one *enabled* subscription with that
URL, and the total number of subscriptions unchanged. -/
theorem c8_register_webhook_idempotent :
    ∀ (s : List Webhook) (i j : Nat),
      countMatching s = 1 →
      (register_webhook i s).length = s.length ∧
      countMatching (register_webhook i s) = 1 ∧
      (∀ x ∈ register_webhook i s, x.callbackUrl = WEBHOOK_URL → x.enabled = true) ∧
      (register_webhook j (register_webhook i s)).length = s.length ∧
      countMatching (register_webhook j (register_webhook i s)) = 1 ∧
      countEnabledMatching (register_webhook j (register_webhook i s)) = 1 := by
  intro s i j hone
  obtain ⟨hc1, hl1⟩ := register_webhook_counts i s (by omega)
  have hone1 : countMatching (register_webhook i s) = 1 := by rw [hc1, hone]
  obtain ⟨hc2, hl2⟩ := register_webhook_counts j (register_webhook i s) (by omega)
  have hone2 : countMatching (register_webhook j (register_webhook i s)) = 1 := by
    rw [hc2, hone1]
  have hen2 : ∀ x ∈ register_webhook j (register_webhook i s),
      x.callbackUrl = WEBHOOK_URL → x.enabled = true :=
    register_webhook_matching_enabled j (register_webhook i s) hone1
  refine ⟨hl1, hone1, register_webhook_matching_enabled i s hone, ?_, hone2, ?_⟩
  · rw [hl2, hl1]
  · unfold countEnabledMatching
    rw [← hone2]
    unfold countMatching
    refine List.countP_congr ?_
    intro x hx
    constructor
    · intro h
      obtain ⟨hurl, _⟩ := of_decide_eq_true h
      exact decide_eq_true hurl
    · intro h
      have hurl := of_decide_eq_true h
      exact decide_eq_true ⟨hurl, hen2 x hx hurl⟩

/-- Witness for `c8_register_webhook_idempotent`: one disabled matching
subscription; after two runs there is exactly one enabled matching
subscription and no second one was created. -/
theorem c8_register_webhook_idempotent_witness :
    countEnabledMatching
        (register_webhook 2 (register_webhook 1 [⟨7, WEBHOOK_URL, false⟩])) = 1 ∧
    (register_webhook 2 (register_webhook 1 [⟨7, WEBHOOK_URL, false⟩])).length = 1 :=
  ⟨(c8_register_webhook_idempotent [⟨7, WEBHOOK_URL, false⟩] 1 2 rfl).2.2.2.2.2,
   (c8_register_webhook_idempotent [⟨7, WEBHOOK_URL, false⟩] 1 2 rfl).2.2.2.1⟩

/-- Dropping a falsy-valued cell anywhere in a row's cell list leaves the
constructed row dict unchanged: the comprehension's `if cell.value` filter
skips it. -/
theorem rowDataGo_falsy (cmap : List (Nat × String)) (c : Cell)
    (h : truthy c.value = false) :
    ∀ (pre post : List Cell) (acc : Dict),
      rowDataGo cmap acc (pre ++ c :: post) = rowDataGo cmap acc (pre ++ post) := by
  intro pre
  induction pre with
  | nil =>
    intro post acc
    simp only [List.nil_append, rowDataGo, h, Bool.false_eq_true, if_false]
  | cons p pre ih =>
    intro post acc
    simp only [List.cons_append, rowDataGo]
    by_cases hp : truthy p.value = true
    · rw [if_pos hp, if_pos hp]
      cases hmap : aget cmap p.columnId with
      | some t => exact ih post (aset acc t p.value)
      | none => rfl
    · rw [if_neg hp, if_neg hp]
      exact ih post acc

/-- A guarded cell write at another cell reference does not change the
value read at `ref`. -/
theorem aget_fill_step (wb : Workbook) (r ref : String) (v : PyVal) (c : Prop)
    [Decidable c] (h : r ≠ ref) :
    aget (if c then aset wb r v else wb) ref = aget wb ref := by
  by_cases hc : c
  · rw [if_pos hc, aget_aset_ne _ _ _ _ h]
  · rw [if_neg hc]

/-- C10: falsy cell values (`False`, `0`, `""`) are treated like absent
cells by both stages.  Fetcher: a row's dict is the same whether a
falsy-valued cell is present or deleted, so e.g. `EPC score 0` or
`Check Box False` is indistinguishable from a missing cell.  Filler: a
mapped column whose value reads falsy on the row leaves the template's
cell content untouched, exactly as when the column is absent. -/
theorem c10_falsy_equals_absent :
    (∀ (cmap : List (Nat × String)) (acc : Dict) (pre post : List Cell) (c : Cell),
      truthy c.value = false →
      rowDataGo cmap acc (pre ++ c :: post) = rowDataGo cmap acc (pre ++ post)) ∧
    (∀ (k ref : String) (cols : List String) (d : Dict) (wb : Workbook),
      (k, ref) ∈ mapping_positions →
      truthy (seriesGet cols d k) = false →
      aget (fillCells cols d wb) ref = aget wb ref) := by
  constructor
  · intro cmap acc pre post c h
    exact rowDataGo_falsy cmap c h pre post acc
  · intro k ref cols d wb hmem hfalsy
    simp only [mapping_positions, List.mem_cons, List.mem_singleton,
      Prod.mk.injEq, List.not_mem_nil, or_false] at hmem
    rcases hmem with ⟨rfl, rfl⟩ | ⟨rfl, rfl⟩ | ⟨rfl, rfl⟩ | ⟨rfl, rfl⟩ <;>
    · simp only [fillCells, mapping_positions, List.foldl_cons, List.foldl_nil, hfalsy,
        Bool.false_eq_true, and_false, if_false]
      rw [aget_fill_step _ _ _ _ _ (by decide), aget_fill_step _ _ _ _ _ (by decide),
        aget_fill_step _ _ _ _ _ (by decide)]

/-- Witness for `c10_falsy_equals_absent`: a `Check Box False` cell
produces the same dict as no cell at all, and a `Tenure` value `0` leaves
the template's B7 content in place. -/
theorem c10_falsy_equals_absent_witness :
    rowDataGo [(2, "Check Box")] [] ([] ++ ⟨2, PyVal.bool false⟩ :: []) =
      rowDataGo [(2, "Check Box")] [] ([] ++ []) ∧
    aget (fillCells ["Tenure"] [("Tenure", PyVal.int 0)] tmpl0) "B7" = aget tmpl0 "B7" :=
  ⟨c10_falsy_equals_absent.1 [(2, "Check Box")] [] [] [] ⟨2, PyVal.bool false⟩ rfl,
   c10_falsy_equals_absent.2 "Tenure" "B7" ["Tenure"] [("Tenure", PyVal.int 0)] tmpl0
     (by decide) rfl⟩

end SmartsheetApp
